import Mathlib

/-!
Verification of the bracket-order monitoring core of the fyers-trading-system
repository, embedded shallowly from `src/place-order.js` and
`src/services/orderService.js`.

The monitoring loop is the `setInterval` callback of `buyWithTPSLAndMonitor`
(place-order.js lines 1175-1236); `shortSellWithTPSLAndMonitor` contains a
control-flow-identical copy (lines 1513-1595, differing only in log output and
an extra position-display block whose errors are swallowed by an inner
try/catch).  Each tick:
  - returns immediately when `monitoringActive` is false;
  - increments `monitorCount` (before the try block, so also on failing ticks);
  - fetches the order list; a fetch failure is caught at the bottom of the
    tick and only logged;
  - if the take-profit order is found with status COMPLETE or FILLED, issues
    one `cancelOrder(slOrderId)` (failure caught and logged), sets
    `monitoringActive = false`, clears the interval and returns (the PROFIT
    terminal message);
  - else if the stop-loss order is found COMPLETE/FILLED, symmetrically
    cancels the take-profit order and terminates (the LOSS terminal message);
  - else if `monitorCount >= maxMonitorTime` (360), terminates without
    cancelling anything (the expiry message).
-/

/-- Bracket resolution states.  The JavaScript code stores no state name; the
field records which terminal branch of the tick callback has fired (identified
by its terminal log message: PROFIT / LOSS / expiry), `ACTIVE` when none has.
`RESOLVED_UNKNOWN` is the extra state named by the specification's
reconciliation policy; it is included so that theorems can speak about it, and
the development shows the code never produces it. -/
inductive BState
| ACTIVE
| RESOLVED_PROFIT
| RESOLVED_LOSS
| RESOLVED_UNKNOWN
| EXPIRED
deriving DecidableEq, Repr

/-- Monitor-session state of one bracket monitor: the mutable variables
`monitoringActive` and `monitorCount` of place-order.js lines 1171-1172,
plus the derived bracket resolution state (see `BState`). -/
structure MonState where
  monitoringActive : Bool
  monitorCount : Nat
  bracket : BState
deriving DecidableEq, Repr

/-- Initial monitor state (place-order.js lines 1171-1172):
`monitoringActive = true`, `monitorCount = 0`, no terminal branch fired. -/
def initMonState : MonState := ⟨true, 0, BState.ACTIVE⟩

/-- `maxMonitorTime = 360` (place-order.js line 1173): 360 one-minute ticks. -/
def maxMonitorTime : Nat := 360

/-- What one tick observes from the outside world.
`fetchFail` models `orderService.getOrders()` throwing.  `fetchOk tp sl cOk`
carries the status of the take-profit and stop-loss orders as found in the
snapshot (`none` when `find` returns `undefined`), and `cOk` tells whether a
`cancelOrder` call issued during this tick would succeed. -/
inductive TickInput
| fetchFail
| fetchOk (tp sl : Option String) (cOk : Bool)
deriving DecidableEq, Repr

/-- Result of one tick: the new monitor state and the list of order ids passed
to `orderService.cancelOrder` during the tick, in call order. -/
structure TickOutput where
  state : MonState
  cancels : List String
deriving DecidableEq, Repr

/-- The fill test of place-order.js lines 1186 and 1204:
`o && (o.status === 'COMPLETE' || o.status === 'FILLED')`, where `o` is the
`find` result (`none` = `undefined`). -/
def optFilled : Option String → Bool
| none => false
| some st => st == "COMPLETE" || st == "FILLED"

/-- Terminal order statuses per the repository's status vocabulary: a fill is
reported as COMPLETE or FILLED (the statuses the monitor tests), CANCELLED and
REJECTED are the other statuses from which no further transition occurs. -/
def isTerminalStatus (st : String) : Bool :=
  st == "COMPLETE" || st == "FILLED" || st == "CANCELLED" || st == "REJECTED"

/-- Whether the observed (optional) order is in a terminal status. -/
def optTerminal : Option String → Bool
| none => false
| some st => isTerminalStatus st

/-- One execution of the monitoring callback (place-order.js lines 1175-1236;
identically 1513-1595).  Faithful points: the guard on `monitoringActive`; the
increment of `monitorCount` before the try block; the take-profit branch
checked before the stop-loss branch; a single `cancelOrder` call per branch
whose failure is caught and changes nothing but the log (`cOk` is therefore
unused by the state transition); the expiry test `monitorCount >=
maxMonitorTime` evaluated only after a successful fetch when neither branch
fired.  The periodic status line (line 1222) is log-only and not modelled. -/
def monitorTick (tpId slId : String) (s : MonState) (inp : TickInput) : TickOutput :=
  if s.monitoringActive = true then
    match inp with
    | TickInput.fetchFail => ⟨⟨true, s.monitorCount + 1, s.bracket⟩, []⟩
    | TickInput.fetchOk tp sl _ =>
        if optFilled tp = true then
          ⟨⟨false, s.monitorCount + 1, BState.RESOLVED_PROFIT⟩, [slId]⟩
        else if optFilled sl = true then
          ⟨⟨false, s.monitorCount + 1, BState.RESOLVED_LOSS⟩, [tpId]⟩
        else if maxMonitorTime ≤ s.monitorCount + 1 then
          ⟨⟨false, s.monitorCount + 1, BState.EXPIRED⟩, []⟩
        else
          ⟨⟨true, s.monitorCount + 1, s.bracket⟩, []⟩
  else ⟨s, []⟩

/-- Run the monitor over a sequence of tick inputs, collecting every
`cancelOrder` call issued along the way. -/
def runMonitor (tpId slId : String) : MonState → List TickInput → MonState × List String
| s, [] => (s, [])
| s, inp :: rest =>
    let out := monitorTick tpId slId s inp
    let r := runMonitor tpId slId out.state rest
    (r.1, out.cancels ++ r.2)

/-- Invariant linking the derived bracket state to the `monitoringActive`
flag: whenever a terminal branch has fired, the monitor has been stopped
(`monitoringActive = false`, interval cleared). -/
def stateInv (s : MonState) : Prop :=
  s.bracket ≠ BState.ACTIVE → s.monitoringActive = false


/-!
Setup phase of `buyWithTPSLAndMonitor` (place-order.js lines 1064-1175).

The entry buy order is placed with `orderService.placeOrder`, which throws on
any non-ok response; a throw is caught by the function's outermost catch
("Order setup failed") and the function returns without starting monitoring
(the explicit `if (buyOrder.s !== 'ok') return` at lines 1069-1072 covers the
same condition).  The take-profit and stop-loss placements (lines 1111-1162)
are each wrapped in their own try/catch: on failure the error is only printed
and the corresponding order id stays `null`.  Execution then falls through to
Step 3 (line 1164) and starts the monitoring interval unconditionally.

The setup phase of `shortSellWithTPSLAndMonitor` (lines 1337-1513) differs in
two ways.  First, after a successful entry placement the wait loop can observe
the entry order with status CANCELLED (checked only when the fill test on the
same snapshot failed), and then returns before any monitoring (lines
1393-1396).  Second, its stop-loss leg has the type-4 fallback: a type-3
failure is not merely logged — the catch at line 1463 attempts the type-4
stop-market placement, whose success sets the stop-loss order id (lines
1466-1483) and whose failure leaves it null (lines 1484-1488).  The guard
requiring both ids before monitoring is commented out (lines 1491-1494), so
once the entry survives, monitoring starts unconditionally.
-/

/-- Outcome of the setup phase: whether the monitoring interval was started,
and the take-profit / stop-loss order ids (`none` = the JavaScript `null`). -/
structure SetupResult where
  monitoringStarted : Bool
  tpOrderId : Option String
  slOrderId : Option String
deriving DecidableEq, Repr

/-- Embedding of the setup phase of `buyWithTPSLAndMonitor` as a function of
the three gateway placement outcomes (entry buy, take-profit, stop-loss);
`tpId`/`slId` are the ids the gateway would assign on success. -/
def buySetup (tpId slId : String) (entryOk tpOk slOk : Bool) : SetupResult :=
  if entryOk = true then
    ⟨true, if tpOk = true then some tpId else none,
           if slOk = true then some slId else none⟩
  else ⟨false, none, none⟩

/-!
Order validation, from `src/services/orderService.js` (the version at
src/unnamed/part_006 lines 205-414, whose `validateOrderData` is the later —
and therefore effective — class member, lines 353-377).

Prices are numbers in JavaScript; they are modelled as rationals (`none` =
field absent from the request object).  JavaScript truthiness of the guards:
`!order.limitPrice || order.limitPrice <= 0` is false exactly when the field
is present and positive; `order.limitPrice >= order.stopPrice` is false when
either operand is `undefined`.
-/

/-- An order request as built by `placeOrder` (part_006 lines 213-234):
`limitPrice`/`stopPrice` are added to the object only when provided. -/
structure OrderReq where
  symbol : String
  qty : Int
  side : Int
  type : Nat
  limitPrice : Option ℚ
  stopPrice : Option ℚ
deriving DecidableEq, Repr

/-- The guard `!p || p <= 0` applied to an optional numeric field. -/
def priceMissingOrNonpos : Option ℚ → Bool
| none => true
| some v => decide (v ≤ 0)

/-- JavaScript `a >= b` on two optional numbers: false when either is
`undefined`. -/
def jsGE : Option ℚ → Option ℚ → Bool
| some a, some b => decide (b ≤ a)
| _, _ => false

/-- Embedding of `validateOrderData` (part_006 lines 353-377).  Returns the
thrown error message, or `ok` when validation passes.  `!order.symbol`,
`!order.qty`, `!order.side` are the emptiness/zero tests of JavaScript
truthiness on a string and two numbers. -/
def validateOrderData (o : OrderReq) : Except String Unit :=
  if o.symbol = "" ∨ o.qty = 0 ∨ o.side = 0 then
    Except.error "Missing required order fields: symbol, qty, side"
  else if (o.type = 1 ∨ o.type = 3) ∧ priceMissingOrNonpos o.limitPrice = true then
    Except.error "Limit price required for limit and stop-limit orders"
  else if (o.type = 3 ∨ o.type = 4) ∧ priceMissingOrNonpos o.stopPrice = true then
    Except.error "Stop price required for stop orders"
  else if o.type = 3 ∧ o.side = 1 ∧ jsGE o.limitPrice o.stopPrice = true then
    Except.error "For BUY stop orders: limitPrice must be less than stopPrice"
  else if o.type = 3 ∧ o.side = -1 ∧ jsGE o.limitPrice o.stopPrice = true then
    Except.error "For SELL stop orders: limitPrice must be less than stopPrice"
  else Except.ok ()

/-- Whether `validateOrderData` throws. -/
def validationFails (o : OrderReq) : Bool :=
  match validateOrderData o with
  | Except.error _ => true
  | Except.ok _ => false

/-- The type-3 stop-loss-limit request built by `shortSellWithTPSLAndMonitor`
(place-order.js lines 1436-1455): side 1 (buy to cover), type 3,
`stopPrice = stopLossPrice - 0.50`, `limitPrice = stopLossPrice`. -/
def mkShortSL3 (sym : String) (q : Int) (stopLossPrice : ℚ) : OrderReq :=
  ⟨sym, q, 1, 3, some stopLossPrice, some (stopLossPrice - 1/2)⟩

/-- The type-4 stop-market fallback request (place-order.js lines 1466-1477):
side 1, type 4, `stopPrice = stopLossPrice`, no limit price. -/
def mkShortSL4 (sym : String) (q : Int) (stopLossPrice : ℚ) : OrderReq :=
  ⟨sym, q, 1, 4, none, some stopLossPrice⟩

/-- The sequence of `placeOrder` invocations made for the stop-loss leg of
`shortSellWithTPSLAndMonitor` (lines 1436-1489): the type-3 request is
attempted first; `placeOrder` validates before calling the gateway and throws
on a validation error, and the surrounding catch then attempts the type-4
fallback.  When validation passes, `gwOk` tells whether the gateway accepts
the type-3 order; a gateway rejection also throws into the same catch. -/
def shortSellSLAttempts (sym : String) (q : Int) (stopLossPrice : ℚ) (gwOk : Bool) :
    List OrderReq :=
  if validationFails (mkShortSL3 sym q stopLossPrice) = true then
    [mkShortSL3 sym q stopLossPrice, mkShortSL4 sym q stopLossPrice]
  else if gwOk = true then
    [mkShortSL3 sym q stopLossPrice]
  else
    [mkShortSL3 sym q stopLossPrice, mkShortSL4 sym q stopLossPrice]

/-- Embedding of the setup phase of `shortSellWithTPSLAndMonitor`
(place-order.js lines 1337-1513).  `entryOk`: the entry short market
placement returns ok (`placeOrder` throws otherwise, caught by the outer
catch; lines 1347-1350 also return explicitly).  `entryCancelled`: the wait
loop observes the entry order with status CANCELLED before observing a fill,
returning without monitoring (lines 1393-1396).  `tpOk`: the take-profit
placement succeeds; its failure is only logged (lines 1432-1434).  The
stop-loss leg attempts the type-3 request with stop price `p`, which throws
on validation failure or gateway rejection (`sl3GwOk = false`); the catch at
line 1463 then attempts the type-4 fallback, which throws before the gateway
when its own validation fails, and otherwise succeeds iff the gateway accepts
it (`sl4GwOk`), setting the stop-loss order id (lines 1466-1488).  Monitoring
then starts unconditionally (the both-ids guard is commented out, lines
1491-1494). -/
def shortSellSetup (tpId slId sym : String) (q : Int) (p : ℚ)
    (entryOk entryCancelled tpOk sl3GwOk sl4GwOk : Bool) : SetupResult :=
  if entryOk = true then
    if entryCancelled = true then ⟨false, none, none⟩
    else
      ⟨true,
        if tpOk = true then some tpId else none,
        if validationFails (mkShortSL3 sym q p) = true ∨ sl3GwOk = false then
          (if validationFails (mkShortSL4 sym q p) = true then none
           else if sl4GwOk = true then some slId else none)
        else some slId⟩
  else ⟨false, none, none⟩

-- Basic lemmas about single ticks and runs.

theorem monitorTick_inactive (tpId slId : String) (s : MonState) (inp : TickInput)
    (h : s.monitoringActive = false) : monitorTick tpId slId s inp = ⟨s, []⟩ := by
  simp [monitorTick, h]

theorem runMonitor_inactive (tpId slId : String) (inputs : List TickInput) (s : MonState)
    (h : s.monitoringActive = false) : runMonitor tpId slId s inputs = (s, []) := by
  induction inputs with
  | nil => simp [runMonitor]
  | cons inp rest ih =>
      simp [runMonitor, monitorTick_inactive tpId slId s inp h, ih]

theorem monitorTick_cancels_length (tpId slId : String) (s : MonState) (inp : TickInput) :
    (monitorTick tpId slId s inp).cancels.length ≤ 1 := by
  by_cases hact : s.monitoringActive = true
  · cases inp with
    | fetchFail => simp [monitorTick, hact]
    | fetchOk tp sl cOk =>
        by_cases htp : optFilled tp = true
        · simp [monitorTick, hact, htp]
        · by_cases hsl : optFilled sl = true
          · simp [monitorTick, hact, htp, hsl]
          · by_cases hmax : maxMonitorTime ≤ s.monitorCount + 1
            · simp [monitorTick, hact, htp, hsl, hmax]
            · simp [monitorTick, hact, htp, hsl, hmax]
  · simp [monitorTick, hact]

theorem monitorTick_cancels_stop (tpId slId : String) (s : MonState) (inp : TickInput)
    (h : (monitorTick tpId slId s inp).cancels ≠ []) :
    (monitorTick tpId slId s inp).state.monitoringActive = false := by
  by_cases hact : s.monitoringActive = true
  · cases inp with
    | fetchFail => simp [monitorTick, hact] at h
    | fetchOk tp sl cOk =>
        by_cases htp : optFilled tp = true
        · simp [monitorTick, hact, htp]
        · by_cases hsl : optFilled sl = true
          · simp [monitorTick, hact, htp, hsl]
          · by_cases hmax : maxMonitorTime ≤ s.monitorCount + 1
            · simp [monitorTick, hact, htp, hsl, hmax] at h
            · simp [monitorTick, hact, htp, hsl, hmax] at h
  · simp [monitorTick, hact] at h

theorem runMonitor_cancels_length (tpId slId : String) (inputs : List TickInput)
    (s : MonState) : (runMonitor tpId slId s inputs).2.length ≤ 1 := by
  induction inputs generalizing s with
  | nil => simp [runMonitor]
  | cons inp rest ih =>
      simp only [runMonitor, List.length_append]
      by_cases h : (monitorTick tpId slId s inp).cancels = []
      · simpa [h] using ih (monitorTick tpId slId s inp).state
      · have hstop := monitorTick_cancels_stop tpId slId s inp h
        have hrest := runMonitor_inactive tpId slId rest _ hstop
        have h1 := monitorTick_cancels_length tpId slId s inp
        simp [hrest]
        omega

theorem monitorTick_stateInv (tpId slId : String) (s : MonState) (inp : TickInput)
    (h : stateInv s) : stateInv (monitorTick tpId slId s inp).state := by
  by_cases hact : s.monitoringActive = true
  · have hbr : s.bracket = BState.ACTIVE := by
      by_contra hb
      rw [h hb] at hact
      exact absurd hact (by simp)
    cases inp with
    | fetchFail =>
        simp [monitorTick, hact, stateInv, hbr]
    | fetchOk tp sl cOk =>
        by_cases htp : optFilled tp = true
        · simp [monitorTick, hact, htp, stateInv]
        · by_cases hsl : optFilled sl = true
          · simp [monitorTick, hact, htp, hsl, stateInv]
          · by_cases hmax : maxMonitorTime ≤ s.monitorCount + 1
            · simp [monitorTick, hact, htp, hsl, hmax, stateInv]
            · simp [monitorTick, hact, htp, hsl, hmax, stateInv, hbr]
  · simpa [monitorTick, hact] using h

theorem runMonitor_stateInv (tpId slId : String) (inputs : List TickInput) (s : MonState)
    (h : stateInv s) : stateInv (runMonitor tpId slId s inputs).1 := by
  induction inputs generalizing s with
  | nil => simpa [runMonitor] using h
  | cons inp rest ih =>
      simpa [runMonitor] using ih _ (monitorTick_stateInv tpId slId s inp h)

-- Helper lemmas for the short-sell stop-loss validation.

theorem validateOrderData_mkShortSL3_isError (sym : String) (q : Int) (p : ℚ) :
    ∃ msg, validateOrderData (mkShortSL3 sym q p) = Except.error msg := by
  simp only [validateOrderData, mkShortSL3, priceMissingOrNonpos, jsGE]
  split_ifs with h1 h2 h3 h4 h5
  · exact ⟨_, rfl⟩
  · exact ⟨_, rfl⟩
  · exact ⟨_, rfl⟩
  · exact ⟨_, rfl⟩
  · exact ⟨_, rfl⟩
  · exact absurd ⟨by trivial, by trivial, decide_eq_true (by linarith)⟩ h4

theorem validationFails_mkShortSL3 (sym : String) (q : Int) (p : ℚ) :
    validationFails (mkShortSL3 sym q p) = true := by
  obtain ⟨msg, hmsg⟩ := validateOrderData_mkShortSL3_isError sym q p
  simp [validationFails, hmsg]

theorem validationFails_mkShortSL4 (sym : String) (q : Int) (p : ℚ)
    (hsym : sym ≠ "") (hq : q ≠ 0) (hp : 0 < p) :
    validationFails (mkShortSL4 sym q p) = false := by
  have h1 : ¬(p ≤ 0) := not_le.mpr hp
  simp [validationFails, validateOrderData, mkShortSL4, priceMissingOrNonpos, jsGE,
    hsym, hq, h1]

theorem validateOrderData_mkShortSL3_buyStopMsg (sym : String) (q : Int) (p : ℚ)
    (hsym : sym ≠ "") (hq : q ≠ 0) (hp : 1/2 < p) :
    validateOrderData (mkShortSL3 sym q p)
      = Except.error "For BUY stop orders: limitPrice must be less than stopPrice" := by
  simp only [validateOrderData, mkShortSL3, priceMissingOrNonpos, jsGE]
  split_ifs with h1 h2 h3 h4 h5
  · rcases h1 with h | h | h
    · exact absurd h hsym
    · exact absurd h hq
    · exact absurd h (by decide)
  · have := of_decide_eq_true h2.2
    linarith
  · have := of_decide_eq_true h3.2
    linarith
  · rfl
  · exact absurd ⟨by trivial, by trivial, decide_eq_true (by linarith)⟩ h4
  · exact absurd ⟨by trivial, by trivial, decide_eq_true (by linarith)⟩ h4

-- Claims.

/-- C1 counterexample: at a tick whose snapshot reports BOTH the take-profit
and the stop-loss order as filled (status COMPLETE), the code takes the
take-profit branch first: it issues one `cancelOrder` call (targeting the
stop-loss order id) — not zero — and resolves the bracket to RESOLVED_PROFIT,
which is not RESOLVED_UNKNOWN. -/
theorem c1_both_filled_counterexample :
    (monitorTick "tp1" "sl1" initMonState
        (TickInput.fetchOk (some "COMPLETE") (some "COMPLETE") true)).cancels = ["sl1"]
    ∧ (monitorTick "tp1" "sl1" initMonState
        (TickInput.fetchOk (some "COMPLETE") (some "COMPLETE") true)).state.bracket
        = BState.RESOLVED_PROFIT
    ∧ BState.RESOLVED_PROFIT ≠ BState.RESOLVED_UNKNOWN := by
  decide

/-- C1 (amended): for every poll tick in which both the take-profit and the
stop-loss order are observed filled in the same snapshot, the take-profit
branch wins: the bracket resolves to RESOLVED_PROFIT (never to
RESOLVED_UNKNOWN) and exactly one `cancelOrder` call is issued during that
tick, targeting the stop-loss order id. -/
theorem c1_both_filled_resolves_profit (tpId slId : String) (s : MonState)
    (tp sl : Option String) (cOk : Bool)
    (hact : s.monitoringActive = true)
    (htp : optFilled tp = true) (hsl : optFilled sl = true) :
    monitorTick tpId slId s (TickInput.fetchOk tp sl cOk)
      = ⟨⟨false, s.monitorCount + 1, BState.RESOLVED_PROFIT⟩, [slId]⟩ := by
  simp [monitorTick, hact, htp]

/-- C1 witness: the amended claim evaluated at a concrete both-filled tick. -/
theorem c1_both_filled_resolves_profit_witness :
    initMonState.monitoringActive = true
    ∧ optFilled (some "COMPLETE") = true
    ∧ optFilled (some "FILLED") = true
    ∧ monitorTick "tp1w" "sl1w" initMonState
        (TickInput.fetchOk (some "COMPLETE") (some "FILLED") false)
        = ⟨⟨false, 1, BState.RESOLVED_PROFIT⟩, ["sl1w"]⟩ :=
  ⟨by decide, by decide, by decide,
    c1_both_filled_resolves_profit "tp1w" "sl1w" initMonState
      (some "COMPLETE") (some "FILLED") false (by decide) (by decide) (by decide)⟩

/-- C2: for every bracket and every sequence of poll ticks over its lifetime,
at most one of the two cancellation actions (cancel the take-profit order,
cancel the stop-loss order) is ever invoked against the gateway: the list of
all `cancelOrder` calls issued by a run from the initial monitor state has
length at most one.  (Ticks are modelled as atomic, in program order; once a
cancelling branch fires it sets `monitoringActive = false` and clears the
interval, so no later tick can cancel again.) -/
theorem c2_at_most_one_cancel (tpId slId : String) (inputs : List TickInput) :
    ((runMonitor tpId slId initMonState inputs).2).length ≤ 1 :=
  runMonitor_cancels_length tpId slId inputs initMonState

/-- C3: once a bracket has reached any RESOLVED_* state or the EXPIRED state
(at the end of any prefix of ticks), every subsequent sequence of ticks leaves
its state unchanged and issues no further gateway action. -/
theorem c3_terminal_state_frozen (tpId slId : String) (pre post : List TickInput)
    (h : (runMonitor tpId slId initMonState pre).1.bracket ≠ BState.ACTIVE) :
    runMonitor tpId slId (runMonitor tpId slId initMonState pre).1 post
      = ((runMonitor tpId slId initMonState pre).1, []) := by
  have hinv : stateInv (runMonitor tpId slId initMonState pre).1 :=
    runMonitor_stateInv tpId slId pre initMonState (by intro hb; exact absurd rfl hb)
  exact runMonitor_inactive tpId slId post _ (hinv h)

/-- C3 witness: after a tick that resolves the bracket (take-profit filled),
a further tick changes nothing and issues no call. -/
theorem c3_terminal_state_frozen_witness :
    (runMonitor "tp3" "sl3" initMonState
        [TickInput.fetchOk (some "COMPLETE") none true]).1.bracket ≠ BState.ACTIVE
    ∧ runMonitor "tp3" "sl3"
        (runMonitor "tp3" "sl3" initMonState
          [TickInput.fetchOk (some "COMPLETE") none true]).1 [TickInput.fetchFail]
        = ((runMonitor "tp3" "sl3" initMonState
            [TickInput.fetchOk (some "COMPLETE") none true]).1, []) :=
  ⟨by decide,
    c3_terminal_state_frozen "tp3" "sl3"
      [TickInput.fetchOk (some "COMPLETE") none true] [TickInput.fetchFail] (by decide)⟩

/-- C4: at every tick in which the take-profit (protective) order is observed
filled while the stop-loss order is still open (not in a terminal status), the
bracket resolves to RESOLVED_PROFIT and exactly one `cancelOrder` call is
issued, targeting the stop-loss order id. -/
theorem c4_tp_filled_resolves_profit (tpId slId : String) (s : MonState)
    (tp sl : Option String) (cOk : Bool)
    (hact : s.monitoringActive = true)
    (htp : optFilled tp = true)
    (hsl : optTerminal sl = false) :
    monitorTick tpId slId s (TickInput.fetchOk tp sl cOk)
      = ⟨⟨false, s.monitorCount + 1, BState.RESOLVED_PROFIT⟩, [slId]⟩ := by
  simp [monitorTick, hact, htp]

/-- C4 witness: take-profit COMPLETE, stop-loss OPEN, at the first tick. -/
theorem c4_tp_filled_resolves_profit_witness :
    initMonState.monitoringActive = true
    ∧ optFilled (some "COMPLETE") = true
    ∧ optTerminal (some "OPEN") = false
    ∧ monitorTick "tp4" "sl4" initMonState
        (TickInput.fetchOk (some "COMPLETE") (some "OPEN") true)
        = ⟨⟨false, 1, BState.RESOLVED_PROFIT⟩, ["sl4"]⟩ :=
  ⟨by decide, by decide, by decide,
    c4_tp_filled_resolves_profit "tp4" "sl4" initMonState
      (some "COMPLETE") (some "OPEN") true (by decide) (by decide) (by decide)⟩

/-- C5 counterexample: at a concrete tick that resolves the bracket as a loss
while every `cancelOrder` call fails, the code issues exactly ONE cancel call
(so a failure is never retried and can never be observed to fail twice), and
the entire tick result — state and all — is identical to the tick in which the
cancel succeeds: no failure flag of any kind is recorded on the bracket. -/
theorem c5_cancel_failure_counterexample :
    (monitorTick "tp5" "sl5" initMonState
        (TickInput.fetchOk (some "OPEN") (some "COMPLETE") false)).cancels.length = 1
    ∧ monitorTick "tp5" "sl5" initMonState
        (TickInput.fetchOk (some "OPEN") (some "COMPLETE") false)
      = monitorTick "tp5" "sl5" initMonState
        (TickInput.fetchOk (some "OPEN") (some "COMPLETE") true) := by
  decide

/-- C5 (amended): when the `cancelOrder` call issued during bracket resolution
fails, it is attempted exactly once (never retried), the failure is caught and
only logged (no flag is recorded: the resulting state is the same as on a
successful cancel), the bracket still reaches its resolved state
(RESOLVED_LOSS here), and no exception propagates to the caller (the tick is a
total function). -/
theorem c5_cancel_failure_nonblocking (tpId slId : String) (s : MonState)
    (tp sl : Option String)
    (hact : s.monitoringActive = true)
    (htp : optFilled tp = false)
    (hsl : optFilled sl = true) :
    monitorTick tpId slId s (TickInput.fetchOk tp sl false)
      = ⟨⟨false, s.monitorCount + 1, BState.RESOLVED_LOSS⟩, [tpId]⟩
    ∧ monitorTick tpId slId s (TickInput.fetchOk tp sl false)
      = monitorTick tpId slId s (TickInput.fetchOk tp sl true) := by
  constructor <;> simp [monitorTick, hact, htp, hsl]

/-- C5 witness: the amended claim evaluated at a concrete losing tick with a
failing cancel call. -/
theorem c5_cancel_failure_nonblocking_witness :
    initMonState.monitoringActive = true
    ∧ optFilled (some "OPEN") = false
    ∧ optFilled (some "FILLED") = true
    ∧ (monitorTick "tp5w" "sl5w" initMonState
          (TickInput.fetchOk (some "OPEN") (some "FILLED") false)
        = ⟨⟨false, 1, BState.RESOLVED_LOSS⟩, ["tp5w"]⟩
      ∧ monitorTick "tp5w" "sl5w" initMonState
          (TickInput.fetchOk (some "OPEN") (some "FILLED") false)
        = monitorTick "tp5w" "sl5w" initMonState
          (TickInput.fetchOk (some "OPEN") (some "FILLED") true)) :=
  ⟨by decide, by decide, by decide,
    c5_cancel_failure_nonblocking "tp5w" "sl5w" initMonState (some "OPEN") (some "FILLED")
      (by decide) (by decide) (by decide)⟩

/-- C6 counterexample: with a successful entry placement, a FAILED take-profit
placement and a successful stop-loss placement, the monitoring loop is started
anyway (the take-profit order id is null), contradicting the claim that a
failed placement prevents monitoring from starting. -/
theorem c6_monitoring_despite_failed_placement :
    (buySetup "tp6" "sl6" true false true).monitoringStarted = true
    ∧ (buySetup "tp6" "sl6" true false true).tpOrderId = none := by
  decide

/-- C6 (amended): monitoring does not require both protective placements to
succeed.  In `buyWithTPSLAndMonitor`, monitoring starts exactly when the
entry buy placement succeeds, and a failed take-profit or stop-loss placement
is only logged, leaving the corresponding order id null while monitoring
still starts.  In `shortSellWithTPSLAndMonitor`, monitoring starts exactly
when the entry placement succeeds and the entry order is not observed
CANCELLED during the wait loop; a failed take-profit placement leaves its id
null, while a failing type-3 stop-loss placement (always the case here, see
C10) triggers the type-4 fallback, so the stop-loss id is set iff the
fallback is accepted by the gateway and is null only when the fallback also
fails.  In both functions monitoring can start with null order ids. -/
theorem c6_monitoring_follows_entry_only (tpId slId sym : String) (q : Int) (p : ℚ)
    (entryOk entryCancelled tpOk slOk sl3GwOk sl4GwOk : Bool)
    (hsym : sym ≠ "") (hq : q ≠ 0) (hp : 0 < p) :
    (buySetup tpId slId entryOk tpOk slOk).monitoringStarted = entryOk
    ∧ (buySetup tpId slId entryOk tpOk slOk).tpOrderId
        = (if (entryOk && tpOk) = true then some tpId else none)
    ∧ (buySetup tpId slId entryOk tpOk slOk).slOrderId
        = (if (entryOk && slOk) = true then some slId else none)
    ∧ (shortSellSetup tpId slId sym q p entryOk entryCancelled tpOk
        sl3GwOk sl4GwOk).monitoringStarted = (entryOk && !entryCancelled)
    ∧ (shortSellSetup tpId slId sym q p entryOk entryCancelled tpOk
        sl3GwOk sl4GwOk).tpOrderId
        = (if (entryOk && !entryCancelled && tpOk) = true then some tpId else none)
    ∧ (shortSellSetup tpId slId sym q p entryOk entryCancelled tpOk
        sl3GwOk sl4GwOk).slOrderId
        = (if (entryOk && !entryCancelled && sl4GwOk) = true then some slId else none) := by
  have h3 := validationFails_mkShortSL3 sym q p
  have h4 := validationFails_mkShortSL4 sym q p hsym hq hp
  cases entryOk <;> cases entryCancelled <;> cases tpOk <;> cases slOk <;>
    cases sl3GwOk <;> cases sl4GwOk <;>
      simp [buySetup, shortSellSetup, h3, h4]

/-- C6 witness: the amended claim at a concrete setup in which the entry
succeeds and is not cancelled, the take-profit placement fails, the buy-path
stop-loss placement succeeds, and the short-path type-4 fallback is accepted:
monitoring starts in both functions, with a null take-profit id. -/
theorem c6_monitoring_follows_entry_only_witness :
    ("NSE:TCS-EQ" : String) ≠ "" ∧ (5 : Int) ≠ 0 ∧ ((0 : ℚ) < 1200)
    ∧ ((buySetup "tp6w" "sl6w" true false true).monitoringStarted = true
      ∧ (buySetup "tp6w" "sl6w" true false true).tpOrderId
          = (if (true && false) = true then some "tp6w" else none)
      ∧ (buySetup "tp6w" "sl6w" true false true).slOrderId
          = (if (true && true) = true then some "sl6w" else none)
      ∧ (shortSellSetup "tp6w" "sl6w" "NSE:TCS-EQ" 5 1200 true false false
          false true).monitoringStarted = (true && !false)
      ∧ (shortSellSetup "tp6w" "sl6w" "NSE:TCS-EQ" 5 1200 true false false
          false true).tpOrderId
          = (if (true && !false && false) = true then some "tp6w" else none)
      ∧ (shortSellSetup "tp6w" "sl6w" "NSE:TCS-EQ" 5 1200 true false false
          false true).slOrderId
          = (if (true && !false && true) = true then some "sl6w" else none)) :=
  ⟨by decide, by decide, by norm_num,
    c6_monitoring_follows_entry_only "tp6w" "sl6w" "NSE:TCS-EQ" 5 1200
      true false false true false true (by decide) (by decide) (by norm_num)⟩

/-- C7: at every tick whose order-list fetch fails, the bracket's resolution
state is unchanged, no gateway action is issued, the failure is not treated as
terminal (`monitoringActive` stays true, so the next natural tick fetches
again); only the session tick counter advances. -/
theorem c7_fetch_failure_skips_tick (tpId slId : String) (s : MonState)
    (hact : s.monitoringActive = true) :
    monitorTick tpId slId s TickInput.fetchFail
      = ⟨⟨true, s.monitorCount + 1, s.bracket⟩, []⟩ := by
  simp [monitorTick, hact]

/-- C7 witness: a failing fetch at the fifth tick of an active bracket. -/
theorem c7_fetch_failure_skips_tick_witness :
    (⟨true, 4, BState.ACTIVE⟩ : MonState).monitoringActive = true
    ∧ monitorTick "tp7" "sl7" ⟨true, 4, BState.ACTIVE⟩ TickInput.fetchFail
        = ⟨⟨true, 5, BState.ACTIVE⟩, []⟩ :=
  ⟨by decide, c7_fetch_failure_skips_tick "tp7" "sl7" ⟨true, 4, BState.ACTIVE⟩ (by decide)⟩

/-- C8: when the tick counter reaches `maxMonitorTime` (360) on a
successful-fetch tick with the bracket still ACTIVE and neither order filled,
the bracket transitions to EXPIRED, no `cancelOrder` call is issued (orders
remain live at the gateway), and the monitor stops: every subsequent tick
sequence leaves the expired state untouched and issues no call, so the
terminal expiry notification of this tick is the unique resolution report. -/
theorem c8_expiry_terminates (tpId slId : String) (s : MonState)
    (tp sl : Option String) (cOk : Bool) (post : List TickInput)
    (hact : s.monitoringActive = true) (hbr : s.bracket = BState.ACTIVE)
    (htp : optFilled tp = false) (hsl : optFilled sl = false)
    (hmax : maxMonitorTime ≤ s.monitorCount + 1) :
    monitorTick tpId slId s (TickInput.fetchOk tp sl cOk)
      = ⟨⟨false, s.monitorCount + 1, BState.EXPIRED⟩, []⟩
    ∧ runMonitor tpId slId ⟨false, s.monitorCount + 1, BState.EXPIRED⟩ post
      = (⟨false, s.monitorCount + 1, BState.EXPIRED⟩, []) := by
  refine ⟨?_, runMonitor_inactive tpId slId post _ rfl⟩
  simp [monitorTick, hact, htp, hsl, hmax]

/-- C8 witness: expiry at the 360th tick, followed by a tick whose snapshot
even reports fills — nothing happens. -/
theorem c8_expiry_terminates_witness :
    (⟨true, 359, BState.ACTIVE⟩ : MonState).monitoringActive = true
    ∧ (⟨true, 359, BState.ACTIVE⟩ : MonState).bracket = BState.ACTIVE
    ∧ optFilled (some "OPEN") = false
    ∧ optFilled none = false
    ∧ maxMonitorTime ≤ 359 + 1
    ∧ (monitorTick "tp8" "sl8" ⟨true, 359, BState.ACTIVE⟩
          (TickInput.fetchOk (some "OPEN") none true)
        = ⟨⟨false, 360, BState.EXPIRED⟩, []⟩
      ∧ runMonitor "tp8" "sl8" ⟨false, 360, BState.EXPIRED⟩
          [TickInput.fetchOk (some "COMPLETE") (some "COMPLETE") true]
        = (⟨false, 360, BState.EXPIRED⟩, [])) :=
  ⟨by decide, by decide, by decide, by decide, by decide,
    c8_expiry_terminates "tp8" "sl8" ⟨true, 359, BState.ACTIVE⟩ (some "OPEN") none true
      [TickInput.fetchOk (some "COMPLETE") (some "COMPLETE") true]
      (by decide) (by decide) (by decide) (by decide) (by decide)⟩

/-- C9: the tick counter is incremented on every tick, including ticks whose
order-list fetch fails, but the expiry check runs only on successful-fetch
ticks: a run of n consecutive failed-fetch ticks from any active state leaves
the monitor active with the bracket state unchanged and the counter advanced
by n, issuing no gateway call and never transitioning to EXPIRED — so if every
fetch fails from some point on, the monitor never expires and never stops. -/
theorem c9_failed_fetch_ticks_never_expire (tpId slId : String) (n : Nat) (s : MonState)
    (hact : s.monitoringActive = true) :
    runMonitor tpId slId s (List.replicate n TickInput.fetchFail)
      = (⟨true, s.monitorCount + n, s.bracket⟩, []) := by
  induction n generalizing s hact with
  | zero =>
      rw [← hact]
      simp [runMonitor]
  | succ n ih =>
      have htick : monitorTick tpId slId s TickInput.fetchFail
          = ⟨⟨true, s.monitorCount + 1, s.bracket⟩, []⟩ := by
        simp [monitorTick, hact]
      have hrec := ih ⟨true, s.monitorCount + 1, s.bracket⟩ rfl
      have harith : s.monitorCount + 1 + n = s.monitorCount + (n + 1) := by omega
      simp only [List.replicate_succ, runMonitor, htick]
      rw [hrec]
      simp [harith]

/-- C9 witness: three failed-fetch ticks at a counter already far past the
360-tick maximum leave the monitor active and unexpired. -/
theorem c9_failed_fetch_ticks_never_expire_witness :
    (⟨true, 1000, BState.ACTIVE⟩ : MonState).monitoringActive = true
    ∧ runMonitor "tp9" "sl9" ⟨true, 1000, BState.ACTIVE⟩
        (List.replicate 3 TickInput.fetchFail)
      = (⟨true, 1003, BState.ACTIVE⟩, []) :=
  ⟨by decide,
    c9_failed_fetch_ticks_never_expire "tp9" "sl9" 3 ⟨true, 1000, BState.ACTIVE⟩ (by decide)⟩

/-- C10: the stop-loss-limit request built by `shortSellWithTPSLAndMonitor`
(side buy, type 3, stopPrice = stopLossPrice - 0.50, limitPrice =
stopLossPrice) always has limitPrice strictly greater than stopPrice, so
`validateOrderData` always rejects it with the buy-stop price-relation error
(for any realistic stop price above half a rupee), and the flow therefore
always goes on to attempt the type-4 stop-market fallback placement. -/
theorem c10_short_sl3_rejected_fallback_attempted (sym : String) (q : Int) (p : ℚ)
    (gwOk : Bool) (hsym : sym ≠ "") (hq : q ≠ 0) (hp : 1/2 < p) :
    (mkShortSL3 sym q p).limitPrice = some p
    ∧ (mkShortSL3 sym q p).stopPrice = some (p - 1/2)
    ∧ p - 1/2 < p
    ∧ validateOrderData (mkShortSL3 sym q p)
        = Except.error "For BUY stop orders: limitPrice must be less than stopPrice"
    ∧ shortSellSLAttempts sym q p gwOk = [mkShortSL3 sym q p, mkShortSL4 sym q p] := by
  refine ⟨rfl, rfl, by linarith,
    validateOrderData_mkShortSL3_buyStopMsg sym q p hsym hq hp, ?_⟩
  simp [shortSellSLAttempts, validationFails_mkShortSL3]

/-- C10 witness: the short-sell stop-loss flow at a concrete stop price of
378 rupees for 10 shares. -/
theorem c10_short_sl3_rejected_fallback_attempted_witness :
    ("NSE:SBIN-EQ" : String) ≠ ""
    ∧ (10 : Int) ≠ 0
    ∧ ((1 : ℚ)/2 < 378)
    ∧ ((mkShortSL3 "NSE:SBIN-EQ" 10 378).limitPrice = some 378
      ∧ (mkShortSL3 "NSE:SBIN-EQ" 10 378).stopPrice = some (378 - 1/2)
      ∧ (378 : ℚ) - 1/2 < 378
      ∧ validateOrderData (mkShortSL3 "NSE:SBIN-EQ" 10 378)
          = Except.error "For BUY stop orders: limitPrice must be less than stopPrice"
      ∧ shortSellSLAttempts "NSE:SBIN-EQ" 10 378 true
          = [mkShortSL3 "NSE:SBIN-EQ" 10 378, mkShortSL4 "NSE:SBIN-EQ" 10 378]) :=
  ⟨by decide, by decide, by norm_num,
    c10_short_sl3_rejected_fallback_attempted "NSE:SBIN-EQ" 10 378 true
      (by decide) (by decide) (by norm_num)⟩
